import Mathlib

/-!
Verification of the xkcd-crawler repository (src/main.py, src/xkcd.py,
src/page.py, src/downloader.py) against its natural-language specification.

The Python code is shallowly embedded: `Page` objects become a Lean
structure, the pages dictionary becomes an association list, external
collaborators (network fetch, image download, `os.path.abspath`) become
oracle function parameters, and a Python exception escaping a function is
an explicit error value.  Python values that may be `None` are `Option`s.
-/

namespace Xkcd

/-- Python exceptions that the embedded code can raise or return. -/
inductive PyErr where
  | attributeError (msg : String)
  | downloaderError (msg : String)
  | valueError (msg : String)
  | other (msg : String)
deriving Repr, DecidableEq

/-- Model of the `src/page.py` class `Page`: one xkcd page.  `pageUrl`, `imageUrl`,
`title`, `comment` and `path` hold Python strings-or-`None`. -/
structure Page where
  pageNum : Nat
  pageUrl : Option String
  imageUrl : Option String
  title : Option String
  comment : Option String
  path : Option String
  isDownloaded : Bool
deriving Repr, DecidableEq

/-- Python `f-string` formatting `f'{n:04}'` on a natural number: the decimal
digits, left-padded with zeros to a minimum width of 4. -/
def format04 (n : Nat) : String :=
  let s := toString n
  String.mk (List.replicate (4 - s.length) '0') ++ s

/-- Python `s.rsplit('/', 1)[-1]`: the part of `s` after the last `'/'`
(all of `s` when it has no `'/'`). -/
def basenamePy (s : String) : String :=
  String.mk (s.data.foldl (fun acc c => if c = '/' then [] else acc.concat c) [])

/-- Python `os.path.join(dir, name)` for POSIX paths. -/
def joinPath (dir name : String) : String :=
  if name.startsWith "/" then name
  else if dir = "" then name
  else if dir.endsWith "/" then dir ++ name
  else dir ++ "/" ++ name

/-- Embeds `Page.getPageUrl` (src/page.py:161-172). -/
def getPageUrl (pageNum : Nat) : String :=
  "https://xkcd.com/" ++ toString pageNum

/-- Embeds `Page.getImageFilename` (src/page.py:62-73).  The source reads
`self.imageUrl`, which is non-`None` at its only call site, so the image
URL is taken as a plain string here.  (The extension warning is a log
line only and does not affect the result.) -/
def getImageFilename (pageNum : Nat) (imageUrl : String) : String :=
  format04 pageNum ++ "_" ++ basenamePy imageUrl

/-- Embeds `Page.downloadImage` (src/page.py:37-60).  External collaborators are
oracles: `abspath` models `os.path.abspath`, `dl url outputPath` models
`Downloader.downloadImage` (`none` = success).  Returns the returned
error (`none` = success) together with the page after the method's
mutations. -/
def Page.downloadImage (abspath : String → String)
    (dl : String → String → Option PyErr)
    (outputDir : String) (p : Page) : Option PyErr × Page :=
  match p.imageUrl with
  | none => (some (.attributeError "Image URL not found"), p)
  | some u =>
    let filename := getImageFilename p.pageNum u
    let outputPath := joinPath outputDir filename
    match dl u outputPath with
    | some err => (some err, p)
    | none => (none, { p with path := some (abspath outputPath), isDownloaded := true })

/-- The extraction-relevant content of a BeautifulSoup document: what
`img.get('src')`, `#ctitle .string` and `img.get('title')` return on it
(src/page.py:174-221 read exactly these). -/
structure Soup where
  imageSrc : Option String
  titleStr : Option String
  imgTitle : Option String
deriving Repr, DecidableEq

/-- Embeds `Page.getImageUrl` (src/page.py:174-190). -/
def getImageUrl (soup : Option Soup) : Option String :=
  match soup with
  | none => none
  | some s =>
    match s.imageSrc with
    | none => none
    | some u => some (if u.startsWith "//" then "http:" ++ u else u)

/-- Embeds `Page.getPageTitle` (src/page.py:192-205). -/
def getPageTitle (soup : Option Soup) : Option String :=
  match soup with
  | none => none
  | some s => s.titleStr

/-- Embeds `Page.getImageComment` (src/page.py:207-221). -/
def getImageComment (soup : Option Soup) : Option String :=
  match soup with
  | none => none
  | some s => s.imgTitle

/-- Embeds `Page.fromSoup` (src/page.py:121-138): returns `None` when any of the
four extracted values is `None`, otherwise a not-yet-downloaded page. -/
def Page.fromSoup (pageNum : Nat) (soup : Option Soup) : Option Page :=
  let pageUrl := some (getPageUrl pageNum)
  let imageUrl := getImageUrl soup
  let title := getPageTitle soup
  let comment := getImageComment soup
  if pageUrl = none ∨ imageUrl = none ∨ title = none ∨ comment = none then none
  else some ⟨pageNum, pageUrl, imageUrl, title, comment, none, false⟩

/-- Outcome of the network/parse part of `Page.fetch` for one page: the GET
failed, BeautifulSoup raised, or a parsed document was produced. -/
inductive FetchOutcome where
  | fetchErr
  | parseErr
  | parsed (soup : Soup)
deriving Repr, DecidableEq

/-- Embeds `Page.fetch` (src/page.py:93-119): `None` on a failed GET or a failed
parse, otherwise `Page.fromSoup` on the parsed soup (which may itself be
`None` when extraction fails). -/
def Page.fetch (net : Nat → FetchOutcome) (pageNum : Nat) : Option Page :=
  match net pageNum with
  | .fetchErr => none
  | .parseErr => none
  | .parsed soup => Page.fromSoup pageNum (some soup)

/-- A JSON value as the cache file uses them: `null`, a string, a number
(page numbers), or a boolean. -/
inductive JValue where
  | jnull
  | jstr (s : String)
  | jnum (n : Nat)
  | jbool (b : Bool)
deriving Repr, DecidableEq

/-- A JSON object: an ordered list of key/value pairs (a Python dict). -/
abbrev JObj := List (String × JValue)

/-- Python dict read `d[k]`: `none` models a `KeyError`. -/
def dictGet {α : Type} (d : List (String × α)) (k : String) : Option α :=
  (d.find? (fun kv => kv.1 = k)).map (fun kv => kv.2)

/-- Python dict assignment `d[k] = v`: replaces the value in place when the
key exists (keeping insertion order), otherwise appends the new key. -/
def dictSet {α : Type} : List (String × α) → String → α → List (String × α)
  | [], k, v => [(k, v)]
  | (k', v') :: rest, k, v =>
    if k' = k then (k, v) :: rest else (k', v') :: dictSet rest k v

/-- Encoding of a Python string-or-`None` as a JSON value. -/
def optStr : Option String → JValue
  | none => .jnull
  | some s => .jstr s

/-- Embeds `Page.toDict` (src/page.py:75-87). -/
def Page.toDict (p : Page) : JObj :=
  [("pageNum", .jnum p.pageNum),
   ("pageUrl", optStr p.pageUrl),
   ("imageUrl", optStr p.imageUrl),
   ("title", optStr p.title),
   ("comment", optStr p.comment),
   ("path", optStr p.path),
   ("isDownloaded", .jbool p.isDownloaded)]

/-- Decoding of a JSON value back into a string-or-`None` field; `none`
when the value is neither `null` nor a string. -/
def decodeOptStr : JValue → Option (Option String)
  | .jnull => some none
  | .jstr s => some (some s)
  | _ => none

/-- Embeds `Page.fromJson` (src/page.py:140-155): reads the seven keys of the
record.  A missing key is a `KeyError` in the source; that, and a value of
the wrong shape for this typed model, yields `none`. -/
def Page.fromJson (j : JObj) : Option Page := do
  let pageNum ← match dictGet j "pageNum" with
    | some (.jnum n) => some n
    | _ => none
  let pageUrl ← (dictGet j "pageUrl").bind decodeOptStr
  let imageUrl ← (dictGet j "imageUrl").bind decodeOptStr
  let title ← (dictGet j "title").bind decodeOptStr
  let comment ← (dictGet j "comment").bind decodeOptStr
  let path ← (dictGet j "path").bind decodeOptStr
  let isDownloaded ← match dictGet j "isDownloaded" with
    | some (.jbool b) => some b
    | _ => none
  some ⟨pageNum, pageUrl, imageUrl, title, comment, path, isDownloaded⟩

/-- The crawler's `self.pages` dictionary.  Its values are whatever Python
object was assigned — `XKCDCrawler.process` assigns the result of
`Page.fetch`, which can be `None`, so the value type is `Option Page`. -/
abbrev Store := List (String × Option Page)

/-- Embeds `XKCDCrawler.toDict` (src/xkcd.py:155-165): the `for` loop over
`self.pages` becomes recursion over the association list.  A `None` value
makes `self.pages[pageNum].toDict()` raise `AttributeError`; the result is
`none` then. -/
def XKCDCrawler.toDict : Store → Option (List (String × JObj))
  | [] => some []
  | (_, none) :: _ => none
  | (k, some p) :: rest => (XKCDCrawler.toDict rest).map (fun d => (k, p.toDict) :: d)

/-- Embeds `XKCDCrawler.fromJson` (src/xkcd.py:41-56): builds a page per key of
the JSON object, in key order; `none` when any `Page.fromJson` raises. -/
def XKCDCrawler.fromJson : List (String × JObj) → Option Store
  | [] => some []
  | (k, o) :: rest =>
    match Page.fromJson o with
    | none => none
    | some p => (XKCDCrawler.fromJson rest).map (fun s => (k, some p) :: s)

/-- Result of one iteration of the worker loop body of
`XKCDCrawler.process` on one page number: the pages dictionary afterwards,
the URLs put into `failedPages` during the iteration, whether `Page.fetch`
was called, whether `Downloader.downloadImage` was called, and the
exception if the body raised (killing the worker thread). -/
structure StepResult where
  pages : Store
  failed : List String
  fetched : Bool
  downloadAttempted : Bool
  raised : Option PyErr
deriving Repr, DecidableEq

/-- The `else` branch of the `XKCDCrawler.process` loop body: fetch the
page, store the result (possibly `None`) into `self.pages`, then call
`page.downloadImage` — an `AttributeError` when the stored result is
`None` (src/xkcd.py:129-134). -/
def processFetchBranch (net : Nat → FetchOutcome) (dl : String → String → Option PyErr)
    (abspath : String → String) (outputDir : String)
    (pages : Store) (pageNum : Nat) (pageNumStr : String) : StepResult :=
  let page? := Page.fetch net pageNum
  let pages1 := dictSet pages pageNumStr page?
  match page? with
  | none =>
    { pages := pages1, failed := [], fetched := true,
      downloadAttempted := false,
      raised := some (.attributeError "NoneType object has no attribute downloadImage") }
  | some page =>
    let r := Page.downloadImage abspath dl outputDir page
    let pages2 := dictSet pages1 pageNumStr (some r.2)
    { pages := pages2,
      failed := if r.1.isSome then [getPageUrl pageNum] else [],
      fetched := true,
      downloadAttempted := page.imageUrl.isSome,
      raised := none }

/-- The body of the `while` loop of `XKCDCrawler.process`
(src/xkcd.py:120-137) for one popped `pageNum`.  `net` and `dl` are the
network oracles of `Page.fetch` and `Downloader.downloadImage`, `abspath`
models `os.path.abspath`.  The source stores `Page.fetch`'s result into
`self.pages[pageNumStr]` before inspecting it, and `self.pages[pageNumStr]`
and the local `page` alias the same object, so a mutation by
`downloadImage` is re-recorded into the store here.  Reading
`self.pages[pageNumStr].isDownloaded` on a stored `None` raises
`AttributeError` as well. -/
def processOne (net : Nat → FetchOutcome) (dl : String → String → Option PyErr)
    (abspath : String → String) (outputDir : String)
    (pages : Store) (pageNum : Nat) : StepResult :=
  let pageNumStr := format04 pageNum
  if pageNum = 404 then
    { pages := pages, failed := [], fetched := false,
      downloadAttempted := false, raised := none }
  else
    match dictGet pages pageNumStr with
    | some none =>
      { pages := pages, failed := [], fetched := false,
        downloadAttempted := false,
        raised := some (.attributeError "NoneType object has no attribute isDownloaded") }
    | some (some p) =>
      if p.isDownloaded then
        { pages := pages, failed := [], fetched := false,
          downloadAttempted := false, raised := none }
      else
        processFetchBranch net dl abspath outputDir pages pageNum pageNumStr
    | none =>
      processFetchBranch net dl abspath outputDir pages pageNum pageNumStr

/-- The observable steps of `XKCDCrawler.download` (src/xkcd.py:58-107). -/
inductive DlEvent where
  | seedQueue
  | spawnWorkers
  | drainWait
  | setKill
  | joinAll
  | reportFailures
  | save
deriving Repr, DecidableEq

/-- The ways a run of `XKCDCrawler.download` reaches its end: the `try`
block sees the queue drain, a `KeyboardInterrupt` is caught, or a worker
thread dies on an uncaught exception while the remaining workers drain the
queue (the scheduler observes a normal drain then). -/
inductive RunEnd where
  | normal
  | interrupted
  | workerFatal
deriving Repr, DecidableEq

/-- The event trace of `XKCDCrawler.download` for each terminating path:
the `try` block (poll until the queue is empty, then join every thread),
the `except KeyboardInterrupt` handler (set the kill event, then join
every thread), and the `finally` block (report failures, then
`self.save(outputDir)`), in source order (src/xkcd.py:84-107). -/
def downloadTrace : RunEnd → List DlEvent
  | .normal =>
      [.seedQueue, .spawnWorkers, .drainWait, .joinAll, .reportFailures, .save]
  | .interrupted =>
      [.seedQueue, .spawnWorkers, .drainWait, .setKill, .joinAll, .reportFailures, .save]
  | .workerFatal =>
      [.seedQueue, .spawnWorkers, .drainWait, .joinAll, .reportFailures, .save]

/-- Python `int(s)` on a decimal string literal: surrounding whitespace
stripped, an optional sign, then at least one digit; `none` models the
`ValueError` raised otherwise. -/
def pyIntParse (s : String) : Option Int :=
  let t := ((s.data.dropWhile Char.isWhitespace).reverse.dropWhile
    Char.isWhitespace).reverse
  let signAndDigits : Int × List Char :=
    match t with
    | '-' :: cs => (-1, cs)
    | '+' :: cs => (1, cs)
    | cs => (1, cs)
  let digits := signAndDigits.2
  if digits ≠ [] ∧ digits.all (fun c => c.isDigit) then
    some (signAndDigits.1 *
      (digits.foldl (fun acc c => acc * 10 + (c.toNat - '0'.toNat)) 0 : Nat))
  else none

/-- Embeds `getStartEnd` (src/main.py:42-57).  `argv` includes the script name at
index 0.  An `int(...)` call on a non-numeric argument raises `ValueError`,
modelled as `.error`. -/
def getStartEnd (argv : List String) : Except PyErr (Option Int × Option Int) :=
  if argv.length = 3 then
    match pyIntParse (argv.getD 1 ""), pyIntParse (argv.getD 2 "") with
    | some a, some b => .ok (some a, some b)
    | _, _ => .error (.valueError "invalid literal for int() with base 10")
  else if argv.length = 2 then
    match pyIntParse (argv.getD 1 "") with
    | some b => .ok (some 1, some b)
    | none => .error (.valueError "invalid literal for int() with base 10")
  else .ok (none, none)

/-- The observable side effects of `main` (src/main.py:15-39). -/
inductive MainEvent where
  | printedUsage
  | madeOutputDir
  | loadedJson
  | startedCrawl
deriving Repr, DecidableEq

/-- Embeds `main` (src/main.py:15-39): the side effects it performs in order, and
the exception that escapes it, if any.  `getStartEnd` runs before any
side effect; an exception there leaves the event list empty. -/
def mainRun (argv : List String) (jsonExists : Bool) :
    List MainEvent × Option PyErr :=
  match getStartEnd argv with
  | .error e => ([], some e)
  | .ok (start, «end») =>
    if start = none ∨ «end» = none then ([.printedUsage], none)
    else
      ([.madeOutputDir] ++ (if jsonExists then [.loadedJson] else []) ++
        [.startedCrawl], none)

/-- A fully-downloaded page, as after a successful earlier run. -/
def sampleDownloadedPage : Page :=
  ⟨5, some "https://xkcd.com/5", some "http://imgs.xkcd.com/comics/a.png",
   some "title", some "comment", some "/abs/output/0005_a.png", true⟩

/-- A soup whose `#ctitle` element is missing: extraction of the title
fails, so `Page.fromSoup` returns `None`. -/
def soupNoTitle : Soup :=
  ⟨some "//imgs.xkcd.com/comics/a.png", none, some "comment"⟩

/-- C1: when field extraction fails (here: no title in the document),
`XKCDCrawler.process` does not leave the pages mapping unchanged at the
id: it writes a `None` placeholder at key "0001" (src/xkcd.py:131 runs
before the result is inspected), and then raises `AttributeError` on
`page.downloadImage`.  This refutes the claim at a concrete input. -/
theorem process_extraction_failure_writes_none_placeholder :
    processOne (fun _ => .parsed soupNoTitle) (fun _ _ => none) id "out" [] 1 =
      { pages := [("0001", none)], failed := [], fetched := true,
        downloadAttempted := false,
        raised := some (.attributeError "NoneType object has no attribute downloadImage") } := by
  rfl

/-- C2: a fetch failure is not converted into a Failure Collector entry;
instead the loop body raises `AttributeError` (`Page.fetch` returned
`None` and src/xkcd.py:132 calls `downloadImage` on it), which propagates
out of `XKCDCrawler.process` and kills the worker thread, with
`failedPages` left empty.  This refutes the claim at a concrete input. -/
theorem process_fetch_failure_raises_uncaught :
    processOne (fun _ => .fetchErr) (fun _ _ => none) id "out" [] 2 =
      { pages := [("0002", none)], failed := [], fetched := true,
        downloadAttempted := false,
        raised := some (.attributeError "NoneType object has no attribute downloadImage") } := by
  rfl

/-- C3: an id whose stored page has `isDownloaded = true` is skipped
entirely by the worker loop body: the pages mapping is returned unchanged,
no URL is put into `failedPages`, `Page.fetch` is never called (so neither
is extraction), `Downloader.downloadImage` is never called, and nothing is
raised (src/xkcd.py:127-128). -/
theorem process_skips_already_downloaded
    (net : Nat → FetchOutcome) (dl : String → String → Option PyErr)
    (abspath : String → String) (outputDir : String)
    (pages : Store) (pageNum : Nat) (p : Page)
    (hget : dictGet pages (format04 pageNum) = some (some p))
    (hp : p.isDownloaded = true) :
    processOne net dl abspath outputDir pages pageNum =
      { pages := pages, failed := [], fetched := false,
        downloadAttempted := false, raised := none } := by
  unfold processOne
  by_cases h404 : pageNum = 404
  · simp [h404]
  · simp [h404, hget, hp]

/-- Witness for C3 at a concrete store and id. -/
theorem process_skips_already_downloaded_on_sample :
    processOne (fun _ => .fetchErr) (fun _ _ => none) id "out"
        [("0005", some sampleDownloadedPage)] 5 =
      { pages := [("0005", some sampleDownloadedPage)], failed := [],
        fetched := false, downloadAttempted := false, raised := none } :=
  process_skips_already_downloaded _ _ _ _ _ _ sampleDownloadedPage (by rfl) (by rfl)

/-- C7: the sentinel id 404 is skipped by the worker loop body with no
fetch, no extraction, no download attempt, no Failure Collector entry and
no change to the pages mapping (src/xkcd.py:124-126). -/
theorem process_skips_sentinel_404
    (net : Nat → FetchOutcome) (dl : String → String → Option PyErr)
    (abspath : String → String) (outputDir : String) (pages : Store) :
    processOne net dl abspath outputDir pages 404 =
      { pages := pages, failed := [], fetched := false,
        downloadAttempted := false, raised := none } := by
  rfl

/-- A fetched, not yet downloaded page, as `Page.fromSoup` builds them. -/
def sampleFetchedPage : Page :=
  ⟨1, some "https://xkcd.com/1", some "http://imgs.xkcd.com/comics/a.png",
   some "title", some "comment", none, false⟩

/-- C10: `Page.downloadImage` is atomic on failure: when it returns a
non-`None` error (missing image URL, or the downloader failed) the page is
left completely unchanged — in particular `path` and `isDownloaded` keep
their old values; when it returns `None` it sets `path` to the absolute
output path and `isDownloaded` to `true` together, changing nothing else
(src/page.py:37-60). -/
theorem downloadImage_atomic_on_failure
    (abspath : String → String) (dl : String → String → Option PyErr)
    (outputDir : String) (p : Page) :
    ((Page.downloadImage abspath dl outputDir p).1 ≠ none →
      (Page.downloadImage abspath dl outputDir p).2 = p) ∧
    ((Page.downloadImage abspath dl outputDir p).1 = none →
      (Page.downloadImage abspath dl outputDir p).2 =
        { p with
            path := some (abspath (joinPath outputDir
              (getImageFilename p.pageNum (p.imageUrl.getD "")))),
            isDownloaded := true }) := by
  rcases himg : p.imageUrl with - | u
  · simp [Page.downloadImage, himg]
  · rcases hdl : dl u (joinPath outputDir (getImageFilename p.pageNum u)) with - | err
    · simp [Page.downloadImage, himg, hdl]
    · simp [Page.downloadImage, himg, hdl]

/-- Witness for C10: a successful download on a concrete page sets `path`
and `isDownloaded` together; a failing downloader leaves the page as it
was. -/
theorem downloadImage_atomic_on_failure_on_sample :
    (Page.downloadImage id (fun _ _ => none) "out" sampleFetchedPage).2 =
      { sampleFetchedPage with
          path := some (id (joinPath "out"
            (getImageFilename sampleFetchedPage.pageNum
              (sampleFetchedPage.imageUrl.getD "")))),
          isDownloaded := true } ∧
    (Page.downloadImage id (fun _ _ => some (.downloaderError "status 500"))
        "out" sampleFetchedPage).2 = sampleFetchedPage :=
  ⟨(downloadImage_atomic_on_failure id (fun _ _ => none) "out" sampleFetchedPage).2
      (by rfl),
   (downloadImage_atomic_on_failure id (fun _ _ => some (.downloaderError "status 500"))
      "out" sampleFetchedPage).1 (by simp [Page.downloadImage, sampleFetchedPage])⟩

/-- C9 counterexample: for page number 12345 the produced filename is
"12345_a.png" — the part before the underscore has five digits, so the
filename is not a zero-padded 4-digit id followed by an underscore and the
URL basename (`f-string` `:04` padding is a minimum width, not a fixed
width). -/
theorem filename_not_always_four_digits :
    getImageFilename 12345 "http://imgs.xkcd.com/comics/a.png" = "12345_a.png" ∧
    ¬ ∃ d : String, d.length = 4 ∧ "12345_a.png" = d ++ "_" ++ "a.png" := by
  refine ⟨by rfl, ?_⟩
  rintro ⟨d, hd, he⟩
  have hlen := congrArg String.length he
  rw [String.length_append, String.length_append, hd] at hlen
  revert hlen
  decide

/-- C9 as amended: the download target of a page whose image URL is set is
the output directory joined with the page number rendered in decimal and
left-padded with zeros to a minimum width of 4 (exactly 4 digits whenever
the id is at most 9999), an underscore, and the basename (final
'/'-separated component) of the image URL; on success `path` records the
absolute form of exactly that location (src/page.py:48-58, 62-73). -/
theorem downloadImage_output_filename
    (abspath : String → String) (dl : String → String → Option PyErr)
    (outputDir : String) (p : Page) (u : String)
    (hu : p.imageUrl = some u)
    (hok : (Page.downloadImage abspath dl outputDir p).1 = none) :
    (Page.downloadImage abspath dl outputDir p).2.path =
      some (abspath (joinPath outputDir (format04 p.pageNum ++ "_" ++ basenamePy u))) ∧
    (format04 p.pageNum).length = max 4 (toString p.pageNum).length := by
  constructor
  · rcases hdl : dl u (joinPath outputDir (format04 p.pageNum ++ "_" ++ basenamePy u))
        with - | err
    · simp [Page.downloadImage, hu, getImageFilename, hdl]
    · simp [Page.downloadImage, hu, getImageFilename, hdl] at hok
  · unfold format04
    rw [String.length_append]
    show (List.replicate (4 - (toString p.pageNum).length) '0').length + _ = _
    rw [List.length_replicate]
    omega

/-- Witness for the amended C9 at a concrete page and downloader. -/
theorem downloadImage_output_filename_on_sample :
    (Page.downloadImage id (fun _ _ => none) "outdir" sampleFetchedPage).2.path =
      some (id (joinPath "outdir"
        (format04 sampleFetchedPage.pageNum ++ "_" ++
          basenamePy "http://imgs.xkcd.com/comics/a.png"))) ∧
    (format04 sampleFetchedPage.pageNum).length =
      max 4 (toString sampleFetchedPage.pageNum).length :=
  downloadImage_output_filename id (fun _ _ => none) "outdir" sampleFetchedPage
    "http://imgs.xkcd.com/comics/a.png" (by rfl) (by rfl)

/-- C5: on every terminating path of `XKCDCrawler.download` — normal queue
drain, `KeyboardInterrupt`, or a worker thread dying while the others
drain the queue — the trace contains exactly one save of the Item Store,
it is the final step, and the scheduler's join of all worker threads
happens exactly once, before the save (the save sits in the `finally`
block, after the `try`/`except` bodies whose last action is joining every
thread; src/xkcd.py:84-107). -/
theorem download_saves_once_after_join (e : RunEnd) :
    (downloadTrace e).count .save = 1 ∧
    (downloadTrace e).count .joinAll = 1 ∧
    (downloadTrace e).indexOf .joinAll < (downloadTrace e).indexOf .save ∧
    (downloadTrace e).getLast? = some .save := by
  cases e <;> exact ⟨by rfl, by rfl, by decide, by rfl⟩

/-- Per-page round trip: decoding the dict that `Page.toDict` produces
recovers the page exactly (every field, including `None` ones). -/
theorem Page.fromJson_toDict (p : Page) : Page.fromJson p.toDict = some p := by
  rcases p with ⟨n, pu, iu, t, c, pa, d⟩
  cases pu <;> cases iu <;> cases t <;> cases c <;> cases pa <;> rfl

/-- C4: for every store all of whose values are actual pages,
`XKCDCrawler.toDict` succeeds and `XKCDCrawler.fromJson` applied to its
result reproduces the store exactly — every key, and every field of every
page (src/xkcd.py:41-56, 155-165 with src/page.py:75-87, 140-155). -/
theorem crawler_snapshot_roundtrip (pages : Store) (h : ∀ kv ∈ pages, kv.2 ≠ none) :
    ∃ d, XKCDCrawler.toDict pages = some d ∧ XKCDCrawler.fromJson d = some pages := by
  induction pages with
  | nil => exact ⟨[], rfl, rfl⟩
  | cons kv rest ih =>
    rcases kv with ⟨k, v⟩
    obtain ⟨p, hp⟩ := Option.ne_none_iff_exists'.mp (h (k, v) (by simp))
    obtain ⟨d, hd1, hd2⟩ := ih (fun kv' h' => h kv' (by simp [h']))
    subst hp
    refine ⟨(k, p.toDict) :: d, ?_, ?_⟩
    · simp [XKCDCrawler.toDict, hd1]
    · simp [XKCDCrawler.fromJson, Page.fromJson_toDict, hd2]

/-- Witness for C4 on a concrete two-page store. -/
theorem crawler_snapshot_roundtrip_on_sample :
    ∃ d, XKCDCrawler.toDict
          [("0001", some sampleFetchedPage), ("0005", some sampleDownloadedPage)] = some d ∧
        XKCDCrawler.fromJson d =
          some [("0001", some sampleFetchedPage), ("0005", some sampleDownloadedPage)] :=
  crawler_snapshot_roundtrip
    [("0001", some sampleFetchedPage), ("0005", some sampleDownloadedPage)]
    (by decide)

/-- The spec's Item invariant: `downloaded == true` implies the stored
asset path and the asset URL are both present and non-empty. -/
def pageInvariant (p : Page) : Bool :=
  !p.isDownloaded || (p.path.getD "" != "" && p.imageUrl.getD "" != "")

/-- A syntactically well-formed cache record claiming `isDownloaded: true`
while `path` and `imageUrl` are `null` — nothing in `Page.fromJson`
rejects it. -/
def downloadedRecordWithoutPath : JObj :=
  [("pageNum", .jnum 1), ("pageUrl", .jstr "https://xkcd.com/1"),
   ("imageUrl", .jnull), ("title", .jstr "title"),
   ("comment", .jstr "comment"), ("path", .jnull),
   ("isDownloaded", .jbool true)]

/-- C6 counterexample: `Page.fromJson` (one of the operations the claim
quantifies over) performs no validation, so loading a record with
`isDownloaded: true`, `path: null` and `imageUrl: null` yields a Page that
is downloaded yet has neither an asset path nor an asset URL — the
invariant is not preserved by the load operation (src/page.py:140-155). -/
theorem fromJson_can_violate_downloaded_invariant :
    ∃ p, Page.fromJson downloadedRecordWithoutPath = some p ∧
      p.isDownloaded = true ∧ p.path = none ∧ p.imageUrl = none ∧
      pageInvariant p = false :=
  ⟨⟨1, some "https://xkcd.com/1", none, some "title", some "comment", none, true⟩,
   by rfl, rfl, rfl, rfl, by rfl⟩

/-- C6 as amended: `Page.fromSoup` always constructs a not-yet-downloaded
page, so the invariant holds of everything it produces; and
`Page.downloadImage` preserves the invariant provided the function
modelling `os.path.abspath` never returns an empty string and the page's
image URL, when present, is non-empty (the source checks only
`imageUrl is None`, not emptiness).  `Page.fromJson` copies the record's
fields verbatim, with no validation, so it guarantees nothing beyond what
the record itself satisfies (src/page.py:37-60, 121-138, 140-155). -/
theorem invariant_preserved_by_fromSoup_and_downloadImage
    (n : Nat) (soup : Option Soup) (p : Page)
    (abspath : String → String) (dl : String → String → Option PyErr)
    (outputDir : String) (q : Page)
    (habs : ∀ s, abspath s ≠ "")
    (himg : ∀ u, q.imageUrl = some u → u ≠ "")
    (hq : pageInvariant q = true) :
    (Page.fromSoup n soup = some p → pageInvariant p = true) ∧
    pageInvariant (Page.downloadImage abspath dl outputDir q).2 = true := by
  constructor
  · intro hsoup
    simp [Page.fromSoup] at hsoup
    rw [← hsoup.2]
    rfl
  · rcases hiu : q.imageUrl with - | u
    · simpa [Page.downloadImage, hiu] using hq
    · rcases hdl : dl u (joinPath outputDir (getImageFilename q.pageNum u)) with - | err
      · have hu : u ≠ "" := himg u hiu
        have ha : abspath (joinPath outputDir (getImageFilename q.pageNum u)) ≠ "" :=
          habs _
        simp [Page.downloadImage, hiu, hdl, pageInvariant, hu, ha]
      · simpa [Page.downloadImage, hiu, hdl] using hq

/-- Witness for the amended C6 at a concrete page, a constant `abspath`
and an always-succeeding downloader. -/
theorem invariant_preserved_on_sample :
    (Page.fromSoup 1 (some ⟨some "//imgs.xkcd.com/comics/a.png", some "t", some "c"⟩) =
        some sampleFetchedPage → pageInvariant sampleFetchedPage = true) ∧
    pageInvariant
      (Page.downloadImage (fun _ => "/abs/out/0001_a.png") (fun _ _ => none)
        "out" sampleFetchedPage).2 = true :=
  invariant_preserved_by_fromSoup_and_downloadImage 1
    (some ⟨some "//imgs.xkcd.com/comics/a.png", some "t", some "c"⟩)
    sampleFetchedPage (fun _ => "/abs/out/0001_a.png") (fun _ _ => none)
    "out" sampleFetchedPage
    (by intro s; show ("/abs/out/0001_a.png" : String) ≠ ""; decide)
    (fun u hu => by
      simp only [sampleFetchedPage, Option.some.injEq] at hu
      rw [← hu]; decide)
    (by rfl)

/-- C8 counterexample: with a non-numeric end argument the program does
not print the usage text; `int('abc')` raises an uncaught `ValueError`
inside `getStartEnd`, before any side effect (src/main.py:24, 51-56). -/
theorem main_nonnumeric_argument_crashes_without_usage :
    mainRun ["main.py", "abc"] false =
      ([], some (.valueError "invalid literal for int() with base 10")) := by
  rfl

/-- C8 as amended: a wrong-arity invocation (not exactly one or two
user arguments) prints the usage text and returns with no other side
effect; a non-numeric start/end argument instead raises an uncaught
`ValueError` before any side effect — no directory is created, no crawl
is started and no file is written, but the usage text is not printed
(src/main.py:15-57). -/
theorem main_bad_arguments
    (argv : List String) (jsonExists : Bool) :
    (argv.length ≠ 2 ∧ argv.length ≠ 3 →
      mainRun argv jsonExists = ([.printedUsage], none)) ∧
    ((argv.length = 2 ∧ pyIntParse (argv.getD 1 "") = none) ∨
     (argv.length = 3 ∧
       (pyIntParse (argv.getD 1 "") = none ∨ pyIntParse (argv.getD 2 "") = none)) →
      mainRun argv jsonExists =
        ([], some (.valueError "invalid literal for int() with base 10"))) := by
  constructor
  · rintro ⟨h2, h3⟩
    unfold mainRun getStartEnd
    rw [if_neg h3, if_neg h2]
    rfl
  · rintro (⟨h2, hp⟩ | ⟨h3, hp⟩)
    · have h3 : argv.length ≠ 3 := by omega
      unfold mainRun getStartEnd
      rw [if_neg h3, if_pos h2, hp]
    · unfold mainRun getStartEnd
      rw [if_pos h3]
      rcases hp1 : pyIntParse (argv.getD 1 "") with - | a
      · rcases hp2 : pyIntParse (argv.getD 2 "") with - | b <;> rfl
      · rcases hp2 : pyIntParse (argv.getD 2 "") with - | b
        · rfl
        · rcases hp with hp | hp
          · rw [hp] at hp1
            exact absurd hp1 (by simp)
          · rw [hp] at hp2
            exact absurd hp2 (by simp)

/-- Witness for the amended C8: no arguments at all prints usage only; a
non-numeric end argument crashes with `ValueError` and no side effects. -/
theorem main_bad_arguments_on_sample :
    mainRun ["main.py"] true = ([.printedUsage], none) ∧
    mainRun ["main.py", "30x"] true =
      ([], some (.valueError "invalid literal for int() with base 10")) :=
  ⟨(main_bad_arguments ["main.py"] true).1 (by decide),
   (main_bad_arguments ["main.py", "30x"] true).2 (Or.inl ⟨by decide, by rfl⟩)⟩

end Xkcd
